import Mathlib

/-! Shallow embedding of the grep-nixos-cache program (src/main.rs) together
with proofs about its specification. Byte buffers are modelled as lists of
natural numbers, anyhow error chains as strings built by the context wrapper
below, and the external collaborators (HTTP transport, xz decompression, NAR
parsing, UTF-8 decoding, the compiled yara rules) as injected functions. -/

/-- Models the anyhow context wrapper: outer message, colon, inner error. -/
def ctx (msg e : String) : String := msg ++ ": " ++ e

/-- Constant PATHS_COUNT_AWS_THRESHOLD from main.rs. -/
def PATHS_COUNT_AWS_THRESHOLD : Nat := 50

/-- Constant NIX_CACHE_REGION from main.rs. -/
def NIX_CACHE_REGION : String := "us-east-1"

/-- Character-list core of the Rust str method strip_prefix. -/
def stripPreList : List Char → List Char → Option (List Char)
  | [], s => some s
  | _ :: _, [] => none
  | p :: ps, c :: cs => if p = c then stripPreList ps cs else none

/-- Models the Rust str method strip_prefix on strings. -/
def stripPre (pre s : String) : Option String :=
  (stripPreList pre.data s.data).map String.mk

/-- Models the Rust str method split_once over the character list: splits at
the first occurrence of the separator. -/
def splitOnceList (c : Char) : List Char → Option (List Char × List Char)
  | [] => none
  | x :: xs =>
    if x = c then some ([], xs)
    else (splitOnceList c xs).map (fun pr => (x :: pr.1, pr.2))

/-- Models the Rust str method split_once. -/
def split_once (s : String) (c : Char) : Option (String × String) :=
  (splitOnceList c s.data).map (fun pr => (String.mk pr.1, String.mk pr.2))

/-- hash_from_path from main.rs: strips the /nix/store/ root and takes the
part of the basename before the first hyphen. -/
def hash_from_path (path : String) : Except String String :=
  match stripPre "/nix/store/" path with
  | none => .error "Path does not start with /nix/store/"
  | some basename =>
    match split_once basename '-' with
    | none => .error "No - in path basename"
    | some pr => .ok pr.1

/-- Folds decimal digits into a natural number. -/
def digitsToNat (cs : List Char) : Nat :=
  cs.foldl (fun acc c => acc * 10 + (c.toNat - 48)) 0

/-- Models parsing with usize::from_str on a 64-bit target: an optional plus
sign, then one or more ASCII digits, and the value must fit in 64 bits. -/
def parseUsize (s : String) : Option Nat :=
  let cs := match s.data with
    | '+' :: rest => rest
    | other => other
  if cs = [] then none
  else if cs.all Char.isDigit then
    if digitsToNat cs < 2 ^ 64 then some (digitsToNat cs) else none
  else none

/-- Splits a character list at newline characters; mirrors the segment
structure used by the Rust str method lines before carriage returns are
stripped. The accumulator holds the current segment reversed. -/
def splitLinesAux : List Char → List Char → List (List Char)
  | [], acc => [acc.reverse]
  | c :: cs, acc =>
    if c = '\n' then acc.reverse :: splitLinesAux cs []
    else splitLinesAux cs (c :: acc)

/-- Strips one trailing carriage return from a segment, as the Rust str
method lines does on each newline-terminated segment. -/
def stripCRList (l : List Char) : List Char :=
  match l.getLast? with
  | some c => if c = '\x0d' then l.dropLast else l
  | none => l

/-- Models the Rust str method lines: split at every newline, strip one
trailing carriage return from each newline-terminated segment, and drop the
final segment when it is empty (a trailing newline adds no line). -/
def rustLines (s : String) : List String :=
  let segs := splitLinesAux s.data []
  let body := (segs.dropLast.map stripCRList).map String.mk
  match segs.getLast? with
  | some [] => body
  | some lastSeg => body ++ [String.mk lastSeg]
  | none => body

/-- NarInfo struct from main.rs. -/
structure NarInfo where
  nar_url : String
  compression : String
  nar_size : Nat
  deriving DecidableEq

/-- The line loop of parse_narinfo from main.rs, with the three optional
fields as explicit state; the final state check mirrors the field order of
the NarInfo struct literal, and the second error message reproduces the typo
of the source. -/
def parse_narinfo_lines : List String → Option String → Option String → Option Nat → Except String NarInfo
  | [], u, c, s =>
    match u with
    | none => .error "Did not find a NAR URL key"
    | some uv =>
      match c with
      | none => .error "Did not a NAR Compression key"
      | some cv =>
        match s with
        | none => .error "Did not find a NAR NarSize key"
        | some sv => .ok ⟨uv, cv, sv⟩
  | l :: ls, u, c, s =>
    match stripPre "URL: " l with
    | some v => parse_narinfo_lines ls (some v) c s
    | none =>
      match stripPre "Compression: " l with
      | some v => parse_narinfo_lines ls u (some v) s
      | none =>
        match stripPre "NarSize: " l with
        | some v =>
          match parseUsize v with
          | some n => parse_narinfo_lines ls u c (some n)
          | none => .error "Invalid NarSize"
        | none => parse_narinfo_lines ls u c s

/-- parse_narinfo from main.rs. -/
def parse_narinfo (text : String) : Except String NarInfo :=
  parse_narinfo_lines (rustLines text) none none none

/-- Linear substring search returning the first match position; models the
contract of the memmem TwoWaySearcher search_in call. -/
def searchIn (needle : List Nat) : List Nat → Option Nat
  | [] => if needle.isPrefixOf [] then some 0 else none
  | x :: t =>
    if needle.isPrefixOf (x :: t) then some 0
    else (searchIn needle t).map (fun i => i + 1)

/-- Matcher enum from main.rs: the exact-substring variant owns its needle
bytes; the yara variant carries the scan behaviour of the compiled rules
(rules.scan_mem under the fixed timeout) as an injected function. -/
inductive Matcher where
  | string (needle : List Nat)
  | yara (scan : List Nat → Except String (List String))

/-- The matches method of Matcher from main.rs. -/
def Matcher.matches : Matcher → List Nat → Except String (List String)
  | .string needle, haystack =>
    if (searchIn needle haystack).isSome then .ok ["needle"] else .ok []
  | .yara scan, haystack => scan haystack

/-- Content of one NAR entry (the nix_nar Content enum); only the file data
is needed by the scanner. -/
inductive NarContent where
  | file (data : List Nat)
  | dir
  | symlink (target : String)
  deriving DecidableEq

/-- One NAR entry; the entry path is modelled as the string the source reads
from the path field (the Option unwrap on the root entry is not modelled). -/
structure NarEntry where
  path : String
  content : NarContent
  deriving DecidableEq

/-- Injected external collaborators: UTF-8 decoding (str::from_utf8), xz
decompression (the xz2 XzDecoder read_to_end call), and NAR parsing (the
nix_nar Decoder constructor plus its entry iterator; per-entry parse failures
are the inner Except values of the returned list). -/
structure Env where
  utf8Decode : List Nat → Except String String
  xzDecode : List Nat → Except String (List Nat)
  narDecode : List Nat → Except String (List (Except String NarEntry))

/-- Download behaviour of the Fetcher enum from main.rs: a key maps to a
status code and body bytes, or to a transport error. -/
abbrev Fetcher : Type := String → Except String (Nat × List Nat)

/-- SearchOutcome struct from main.rs; the multimap is modelled as the list
of (file path, tag) insertions in insertion order. -/
structure SearchOutcome where
  path : String
  files_matched : List (String × String)
  deriving DecidableEq

/-- fetch_narinfo from main.rs: status 403 yields none, any other status
flows into UTF-8 decoding and narinfo parsing of the body. -/
def fetch_narinfo (env : Env) (fetcher : Fetcher) (hash : String) : Except String (Option NarInfo) :=
  match fetcher (hash ++ ".narinfo") with
  | .error e => .error e
  | .ok (code, body) =>
    if code = 403 then .ok none
    else
      match env.utf8Decode body with
      | .error e => .error e
      | .ok data =>
        match parse_narinfo data with
        | .error e => .error (ctx "Could not parse narinfo file" e)
        | .ok ni => .ok (some ni)

/-- fetch_nar from main.rs: downloads the NAR discarding the returned status
code, decompresses (only xz is supported) and hands the buffer to the NAR
parser. -/
def fetch_nar (env : Env) (fetcher : Fetcher) (narinfo : NarInfo) :
    Except String (List (Except String NarEntry)) :=
  match fetcher narinfo.nar_url with
  | .error e => .error e
  | .ok (_, compressed) =>
    match (if narinfo.compression = "xz" then env.xzDecode compressed
           else .error ("Unknown compression method: " ++ narinfo.compression)) with
    | .error e => .error e
    | .ok contents => (env.narDecode contents).mapError (ctx "Not a valid NAR file")

/-- The entry loop inside find_matches_in_path from main.rs: file entries are
scanned and each returned tag is inserted keyed by the member path. -/
def scan_entries (matcher : Matcher) : List (Except String NarEntry) → Except String (List (String × String))
  | [] => .ok []
  | .error e :: _ => .error (ctx "Failed to parse NAR entry" e)
  | .ok entry :: rest =>
    match entry.content with
    | .file data =>
      match matcher.matches data with
      | .error e => .error e
      | .ok tags =>
        match scan_entries matcher rest with
        | .error e => .error e
        | .ok tail => .ok (tags.map (fun t => (entry.path, t)) ++ tail)
    | _ => scan_entries matcher rest

/-- find_matches_in_path from main.rs. -/
def find_matches_in_path (env : Env) (matcher : Matcher) (fetcher : Fetcher) (path : String) :
    Except String SearchOutcome :=
  match hash_from_path path with
  | .error e => .error (ctx ("Failed to parse path: " ++ path) e)
  | .ok hash =>
    match fetch_narinfo env fetcher hash with
    | .error e => .error (ctx "Failed to fetch narinfo" e)
    | .ok none => .ok ⟨path, []⟩
    | .ok (some narinfo) =>
      match fetch_nar env fetcher narinfo with
      | .error e => .error (ctx "Failed to fetch nar" e)
      | .ok entries =>
        match scan_entries matcher entries with
        | .error e => .error e
        | .ok fm => .ok ⟨path, fm⟩

/-- Models the Debug formatting the source applies to the path in its
top-level error annotation (escaping of inner quotes is not modelled). -/
def dbgQuote (s : String) : String := "\"" ++ s ++ "\""

/-- The task body spawned per path in main: the pipeline result with the
per-target error annotation naming the path. -/
def process_path (env : Env) (matcher : Matcher) (fetcher : Fetcher) (p : String) :
    Except String SearchOutcome :=
  (find_matches_in_path env matcher fetcher p).mapError
    (fun e => ctx ("Error while analyzing path " ++ dbgQuote p) e)

/-- The drive-and-drain loop of main over the whole batch: one result per
path, and the process exit status, which is zero because main returns
normally after the stream is exhausted no matter how many targets failed. -/
def run_batch (env : Env) (matcher : Matcher) (fetcher : Fetcher) (paths : List String) :
    Nat × List (Except String SearchOutcome) :=
  (0, paths.map (process_path env matcher fetcher))

/-- The two retrieval backends of the Fetcher enum from main.rs. -/
inductive FetcherKind where
  | cdn
  | s3
  deriving DecidableEq

/-- Outcome of the pre-flight backend selection in main: an early exit with
status one, or the chosen backend. -/
inductive PreflightResult where
  | exitNoPaths
  | exitExpensive
  | proceed (kind : FetcherKind)
  deriving DecidableEq

/-- The backend selection logic of main (the CostGuard): empty batches exit,
batches at or above the threshold require the override flag or the expected
region, smaller batches use the CDN. A failed region lookup is the sentinel
value not-aws, as in the unwrap_or of the source. -/
def select_fetcher (nPaths : Nat) (allowExpensive : Bool) (awsRegion : Option String) : PreflightResult :=
  if nPaths = 0 then .exitNoPaths
  else if PATHS_COUNT_AWS_THRESHOLD ≤ nPaths then
    if allowExpensive = false ∧ awsRegion.getD "not-aws" ≠ NIX_CACHE_REGION then .exitExpensive
    else .proceed .s3
  else .proceed .cdn

/-- main from line 309 onward, after flag parsing and with the matcher
already constructed: backend selection, then the batch loop. Pre-flight
exits carry status one and an empty result list, since they happen before
any target is processed. -/
def main_run (env : Env) (backends : FetcherKind → Fetcher) (matcher : Matcher)
    (allowExpensive : Bool) (awsRegion : Option String) (paths : List String) :
    Nat × List (Except String SearchOutcome) :=
  match select_fetcher paths.length allowExpensive awsRegion with
  | .exitNoPaths => (1, [])
  | .exitExpensive => (1, [])
  | .proceed kind => run_batch env matcher (backends kind) paths

/-- State of the bounded-concurrency engine built on buffer_unordered:
paths not yet started, paths in flight, and the processed counter. -/
structure EngineState where
  pending : List String
  inFlight : List String
  completed : Nat
  deriving DecidableEq

/-- Transitions of the engine: a pending path may start only while fewer
than the configured limit are in flight (the buffer_unordered contract), and
any in-flight path may complete, in arrival order, not submission order. -/
inductive EngineStep (limit : Nat) : EngineState → EngineState → Prop where
  | start (p : String) (rest fl : List String) (c : Nat) :
      fl.length < limit →
      EngineStep limit ⟨p :: rest, fl, c⟩ ⟨rest, p :: fl, c⟩
  | complete (pend fl1 fl2 : List String) (x : String) (c : Nat) :
      EngineStep limit ⟨pend, fl1 ++ x :: fl2, c⟩ ⟨pend, fl1 ++ fl2, c + 1⟩

/-- States the engine can reach from the start of a batch. -/
inductive EngineReach (limit : Nat) (paths : List String) : EngineState → Prop where
  | init : EngineReach limit paths ⟨paths, [], 0⟩
  | next {s s' : EngineState} :
      EngineReach limit paths s → EngineStep limit s s' → EngineReach limit paths s'

/-- Recognizes a URL line of a narinfo file. -/
def isURLLine (l : String) : Bool := (stripPre "URL: " l).isSome

/-- Recognizes a Compression line of a narinfo file. -/
def isCompLine (l : String) : Bool := (stripPre "Compression: " l).isSome

/-- Recognizes a NarSize line of a narinfo file. -/
def isSizeLine (l : String) : Bool := (stripPre "NarSize: " l).isSome

/-- Holds unless the line is a NarSize line with a non-numeric value. -/
def sizeLineOk (l : String) : Bool :=
  match stripPre "NarSize: " l with
  | some v => (parseUsize v).isSome
  | none => true

/-- Value of the last line with the given key prefix, starting from an
initial state. -/
def lastValFrom (pre : String) (ls : List String) (init : Option String) : Option String :=
  match ls with
  | [] => init
  | l :: rest =>
    lastValFrom pre rest
      (match stripPre pre l with
       | some v => some v
       | none => init)

/-- Parsed value of the last NarSize line, starting from an initial state;
lines with non-numeric values leave the state unchanged (on a successful
parse none occur). -/
def lastSizeFrom (ls : List String) (init : Option Nat) : Option Nat :=
  match ls with
  | [] => init
  | l :: rest =>
    lastSizeFrom rest
      (match stripPre "NarSize: " l with
       | some v =>
         (match parseUsize v with
          | some n => some n
          | none => init)
       | none => init)

/-- Bytes of an ASCII string, as sent over the wire. -/
def asciiBytes (s : String) : List Nat := s.data.map Char.toNat

/-- A concrete UTF-8 decoder for the test fixtures: it agrees with
str::from_utf8 on ASCII input and rejects anything else. -/
def asciiUtf8Decode (bs : List Nat) : Except String String :=
  if bs.all (fun b => b < 128) then .ok (String.mk (bs.map Char.ofNat))
  else .error "invalid utf-8 sequence"

/-- A concrete environment for the test fixtures: ASCII UTF-8 decoding, the
identity in place of xz decompression, and a NAR parser producing no
entries. -/
def env0 : Env where
  utf8Decode := asciiUtf8Decode
  xzDecode := fun bs => .ok bs
  narDecode := fun _ => .ok []

/-- A backend whose every download answers 403 with an empty body. -/
def fetcher403 : Fetcher := fun _ => .ok (403, [])

/-- The narinfo text of the parsing counterexample: it contains a URL line,
a Compression line and a NarSize line with a numeric value, yet also a
NarSize line with a non-numeric value. -/
def cex5 : String := "URL: u\nCompression: c\nNarSize: x\nNarSize: 5"

/-- Body bytes of a well-formed narinfo file. -/
def cexBody : List Nat := asciiBytes "URL: u\nCompression: xz\nNarSize: 5"

/-- A backend whose every download answers with a server error status but a
well-formed narinfo body. -/
def fetcher500 : Fetcher := fun _ => .ok (500, cexBody)

theorem stripPreList_eq_some (p : List Char) : ∀ {s t : List Char},
    stripPreList p s = some t ↔ s = p ++ t := by
  induction p with
  | nil => intro s t; simp [stripPreList]
  | cons a ps ih =>
    intro s t
    cases s with
    | nil => simp [stripPreList]
    | cons c cs =>
      by_cases h : a = c
      · subst h
        simp [stripPreList, ih]
      · simp [stripPreList, h, Ne.symm h]

theorem data_mk (l : List Char) : (String.mk l).data = l := rfl

theorem mk_inj {a b : List Char} : String.mk a = String.mk b ↔ a = b :=
  ⟨fun h => congrArg String.data h, fun h => by rw [h]⟩

theorem stripPre_eq_some {pre s v : String} :
    stripPre pre s = some v ↔ s.data = pre.data ++ v.data := by
  obtain ⟨d⟩ := v
  simp only [stripPre, Option.map_eq_some', stripPreList_eq_some, mk_inj, data_mk]
  constructor
  · rintro ⟨a, ha, rfl⟩; exact ha
  · intro h; exact ⟨d, h, rfl⟩

theorem splitOnceList_append (c : Char) (a b : List Char) (h : c ∉ a) :
    splitOnceList c (a ++ c :: b) = some (a, b) := by
  induction a with
  | nil => simp [splitOnceList]
  | cons x xs ih =>
    have hx : x ≠ c := fun hh => h (hh ▸ List.mem_cons_self x xs)
    have hxs : c ∉ xs := fun hm => h (List.mem_cons_of_mem _ hm)
    simp [splitOnceList, hx, ih hxs]

theorem splitOnceList_eq_none (c : Char) (l : List Char) (h : c ∉ l) :
    splitOnceList c l = none := by
  induction l with
  | nil => rfl
  | cons x xs ih =>
    have hx : x ≠ c := fun hh => h (hh ▸ List.mem_cons_self x xs)
    have hxs : c ∉ xs := fun hm => h (List.mem_cons_of_mem _ hm)
    simp [splitOnceList, hx, ih hxs]

theorem hash_from_path_ok (hash name : String) (h : '-' ∉ hash.data) :
    hash_from_path (String.mk ("/nix/store/".data ++ (hash.data ++ '-' :: name.data))) = .ok hash := by
  have h1 : stripPre "/nix/store/" (String.mk ("/nix/store/".data ++ (hash.data ++ '-' :: name.data)))
      = some (String.mk (hash.data ++ '-' :: name.data)) := stripPre_eq_some.mpr rfl
  have h2 : splitOnceList '-' (hash.data ++ '-' :: name.data) = some (hash.data, name.data) :=
    splitOnceList_append '-' hash.data name.data h
  simp only [hash_from_path, h1, split_once, data_mk, h2, Option.map_some']

theorem hash_from_path_no_root (path : String) (h : ¬ ("/nix/store/".data <+: path.data)) :
    hash_from_path path = .error "Path does not start with /nix/store/" := by
  have h1 : stripPre "/nix/store/" path = none := by
    cases hh : stripPre "/nix/store/" path with
    | none => rfl
    | some v => exact absurd ⟨v.data, (stripPre_eq_some.mp hh).symm⟩ h
  simp [hash_from_path, h1]

theorem hash_from_path_no_dash (path rest : String)
    (hd : path.data = "/nix/store/".data ++ rest.data) (h : '-' ∉ rest.data) :
    hash_from_path path = .error "No - in path basename" := by
  have h1 : stripPre "/nix/store/" path = some rest := stripPre_eq_some.mpr hd
  have h2 : splitOnceList '-' rest.data = none := splitOnceList_eq_none '-' rest.data h
  simp [hash_from_path, h1, split_once, h2]

/-- C6: for a path of the store shape the derived hash is exactly the
substring between the root and the first hyphen; derivation fails for a path
lacking the root, and for a path whose basename has no hyphen. -/
theorem hash_derivation :
    (∀ hash name : String, '-' ∉ hash.data →
      hash_from_path (String.mk ("/nix/store/".data ++ (hash.data ++ '-' :: name.data))) = .ok hash) ∧
    (∀ path : String, ¬ ("/nix/store/".data <+: path.data) →
      hash_from_path path = .error "Path does not start with /nix/store/") ∧
    (∀ path rest : String, path.data = "/nix/store/".data ++ rest.data → '-' ∉ rest.data →
      hash_from_path path = .error "No - in path basename") :=
  ⟨hash_from_path_ok, hash_from_path_no_root, hash_from_path_no_dash⟩

theorem hash_derivation_witness :
    hash_from_path "/nix/store/abcd1234-name-1.0" = .ok "abcd1234" ∧
    hash_from_path "/tmp/abcd1234-name" = .error "Path does not start with /nix/store/" ∧
    hash_from_path "/nix/store/nohyphen" = .error "No - in path basename" :=
  ⟨hash_derivation.1 "abcd1234" "name-1.0" (by decide),
   hash_derivation.2.1 "/tmp/abcd1234-name" (by decide),
   hash_derivation.2.2 "/nix/store/nohyphen" "nohyphen" (by decide) (by decide)⟩

/-- C10: hash derivation validates nothing about the hash itself; a basename
beginning with a hyphen yields the empty string as the hash. -/
theorem hash_no_validation :
    (∀ name : String,
      hash_from_path (String.mk ("/nix/store/".data ++ ('-' :: name.data))) = .ok "") ∧
    hash_from_path "/nix/store/-name" = .ok "" :=
  ⟨fun name => hash_from_path_ok "" name (by decide),
   hash_from_path_ok "" "name" (by decide)⟩

theorem searchIn_isSome_iff (needle : List Nat) (hay : List Nat) :
    (searchIn needle hay).isSome = true ↔ needle <:+: hay := by
  induction hay with
  | nil =>
    cases needle with
    | nil => simp [searchIn]
    | cons a t => simp [searchIn, List.infix_nil]
  | cons x t ih =>
    by_cases h : needle.isPrefixOf (x :: t)
    · simp only [searchIn, if_pos h, Option.isSome_some, true_iff]
      exact (List.isPrefixOf_iff_prefix.mp h).isInfix
    · have hp : ¬ needle <+: x :: t := fun hc => h (List.isPrefixOf_iff_prefix.mpr hc)
      simp only [searchIn, if_neg h]
      rw [Option.isSome_map', ih, List.infix_cons_iff]
      tauto

/-- C7: the exact-substring matcher never errors; it returns the single tag
needle exactly when the needle occurs as a contiguous byte run inside the
haystack, and the empty tag set otherwise. -/
theorem matcher_string_spec (needle haystack : List Nat) :
    ∃ tags, Matcher.matches (.string needle) haystack = .ok tags ∧
      (tags ≠ [] ↔ needle <:+: haystack) ∧
      (needle <:+: haystack → tags = ["needle"]) ∧
      (¬ needle <:+: haystack → tags = []) := by
  by_cases h : needle <:+: haystack
  · refine ⟨["needle"], ?_, by simp [h], fun _ => rfl, fun hc => absurd h hc⟩
    simp [Matcher.matches, (searchIn_isSome_iff needle haystack).mpr h]
  · refine ⟨[], ?_, by simp [h], fun hc => absurd hc h, fun _ => rfl⟩
    have hs : (searchIn needle haystack).isSome = false := by
      rcases hb : (searchIn needle haystack).isSome with _ | _
      · rfl
      · exact absurd ((searchIn_isSome_iff needle haystack).mp hb) h
    simp [Matcher.matches, hs]

theorem matcher_string_spec_witness :
    ∃ tags, Matcher.matches (.string [2, 3]) [1, 2, 3, 4] = .ok tags ∧
      (tags ≠ [] ↔ [2, 3] <:+: [1, 2, 3, 4]) ∧
      ([2, 3] <:+: [1, 2, 3, 4] → tags = ["needle"]) ∧
      (¬ [2, 3] <:+: [1, 2, 3, 4] → tags = []) :=
  matcher_string_spec [2, 3] [1, 2, 3, 4]

/-- C3: a 403 on the metadata fetch is not an error: resolution returns none
and the pipeline returns a successful outcome with an empty match result.
The environment, the matcher, and the behaviour of the fetcher on every
other key are arbitrary, so no archive fetch, decode or match can influence
the outcome. -/
theorem metadata_not_found_iso (env : Env) (matcher : Matcher) (fetcher : Fetcher)
    (path hash : String) (body : List Nat)
    (h1 : hash_from_path path = .ok hash)
    (h2 : fetcher (hash ++ ".narinfo") = .ok (403, body)) :
    fetch_narinfo env fetcher hash = .ok none ∧
    find_matches_in_path env matcher fetcher path = .ok ⟨path, []⟩ := by
  have hn : fetch_narinfo env fetcher hash = .ok none := by
    simp [fetch_narinfo, h2]
  exact ⟨hn, by simp only [find_matches_in_path, h1, hn]⟩

theorem metadata_not_found_iso_witness :
    fetch_narinfo env0 fetcher403 "a" = .ok none ∧
    find_matches_in_path env0 (.string [1]) fetcher403 "/nix/store/a-b" =
      .ok ⟨"/nix/store/a-b", []⟩ :=
  metadata_not_found_iso env0 (.string [1]) fetcher403 "/nix/store/a-b" "a" [] rfl rfl

/-- C4 counterexample: a metadata fetch completing with status 500, which is
neither a success code nor 403, does not produce an error: the resolver
parses the body and returns a descriptor. -/
theorem fetch_narinfo_cex :
    fetch_narinfo env0 fetcher500 "h" = .ok (some ⟨"u", "xz", 5⟩) ∧
    (500 : Nat) ≠ 403 ∧ ¬ (200 ≤ (500 : Nat) ∧ (500 : Nat) < 300) := by
  refine ⟨rfl, by decide, by decide⟩

/-- C4 amended: for every metadata fetch completing with a status other than
403, the resolver attempts to decode and parse the response body regardless
of the status code; it produces a fatal per-target error exactly when UTF-8
decoding or descriptor parsing fails. -/
theorem fetch_narinfo_amended (env : Env) (fetcher : Fetcher) (hash : String)
    (code : Nat) (body : List Nat)
    (h : fetcher (hash ++ ".narinfo") = .ok (code, body)) (hc : code ≠ 403) :
    fetch_narinfo env fetcher hash =
      (match env.utf8Decode body with
       | .error e => .error e
       | .ok data =>
         match parse_narinfo data with
         | .error e => .error (ctx "Could not parse narinfo file" e)
         | .ok ni => .ok (some ni)) := by
  simp only [fetch_narinfo, h, if_neg hc]

theorem fetch_narinfo_amended_witness :
    fetch_narinfo env0 fetcher500 "w" =
      (match env0.utf8Decode cexBody with
       | .error e => .error e
       | .ok data =>
         match parse_narinfo data with
         | .error e => .error (ctx "Could not parse narinfo file" e)
         | .ok ni => .ok (some ni)) :=
  fetch_narinfo_amended env0 fetcher500 "w" 500 cexBody rfl (by decide)

/-- C9: the archive payload fetch ignores the retrieval status code: two
backends answering the same body under different status codes produce the
same result, and for an xz descriptor that result is exactly decompression
followed by NAR parsing of the body, so an absent archive can only surface
as a decompression or archive-parse error, never as a fetch-status error. -/
theorem fetch_nar_status_ignored (env : Env) (ni : NarInfo) (body : List Nat)
    (f g : Fetcher) (code code' : Nat)
    (hf : f ni.nar_url = .ok (code, body)) (hg : g ni.nar_url = .ok (code', body)) :
    fetch_nar env f ni = fetch_nar env g ni ∧
    (ni.compression = "xz" →
      fetch_nar env f ni =
        (match env.xzDecode body with
         | .error e => .error e
         | .ok contents => (env.narDecode contents).mapError (ctx "Not a valid NAR file"))) ∧
    (ni.compression ≠ "xz" →
      fetch_nar env f ni = .error ("Unknown compression method: " ++ ni.compression)) := by
  refine ⟨by simp only [fetch_nar, hf, hg], ?_, ?_⟩
  · intro hxz
    simp [fetch_nar, hf, hxz]
  · intro hxz
    simp only [fetch_nar, hf, if_neg hxz]

theorem fetch_nar_status_ignored_witness :
    fetch_nar env0 (fun _ => .ok (200, [1, 2])) ⟨"u", "xz", 7⟩ =
      fetch_nar env0 (fun _ => .ok (404, [1, 2])) ⟨"u", "xz", 7⟩ ∧
    ((⟨"u", "xz", 7⟩ : NarInfo).compression = "xz" →
      fetch_nar env0 (fun _ => .ok (200, [1, 2])) ⟨"u", "xz", 7⟩ =
        (match env0.xzDecode [1, 2] with
         | .error e => .error e
         | .ok contents => (env0.narDecode contents).mapError (ctx "Not a valid NAR file"))) ∧
    ((⟨"u", "xz", 7⟩ : NarInfo).compression ≠ "xz" →
      fetch_nar env0 (fun _ => .ok (200, [1, 2])) ⟨"u", "xz", 7⟩ =
        .error ("Unknown compression method: " ++ (⟨"u", "xz", 7⟩ : NarInfo).compression)) :=
  fetch_nar_status_ignored env0 ⟨"u", "xz", 7⟩ [1, 2]
    (fun _ => .ok (200, [1, 2])) (fun _ => .ok (404, [1, 2])) 200 404 rfl rfl

/-- C1: per-target error isolation. The batch loop exits with status zero,
produces exactly one result per target, the result of each target is a
function of that target alone (so a failure in one target cannot affect any
other), and every per-target error is annotated with the identity of the
failing target. -/
theorem per_target_isolation (env : Env) (matcher : Matcher) (fetcher : Fetcher)
    (paths : List String) (i : Nat) (p : String) (h : paths[i]? = some p) :
    (run_batch env matcher fetcher paths).1 = 0 ∧
    (run_batch env matcher fetcher paths).2.length = paths.length ∧
    (run_batch env matcher fetcher paths).2[i]? = some (process_path env matcher fetcher p) ∧
    (∀ e, process_path env matcher fetcher p = .error e →
      p.data <:+: e.data ∧
      ∃ inner, e = ctx ("Error while analyzing path " ++ dbgQuote p) inner) := by
  refine ⟨rfl, by simp [run_batch], ?_, ?_⟩
  · simp [run_batch, List.getElem?_map, h]
  · intro e he
    unfold process_path at he
    cases hf : find_matches_in_path env matcher fetcher p with
    | ok v => rw [hf] at he; simp [Except.mapError] at he
    | error inner =>
      rw [hf] at he
      simp only [Except.mapError, Except.error.injEq] at he
      refine ⟨?_, inner, he.symm⟩
      rw [← he]
      refine ⟨("Error while analyzing path " ++ "\"").data, ("\"" ++ ": " ++ inner).data, ?_⟩
      simp [ctx, dbgQuote, String.data_append, List.append_assoc]

theorem per_target_isolation_witness :
    (run_batch env0 (.string [1]) fetcher403 ["/bad", "/nix/store/a-b"]).1 = 0 ∧
    (run_batch env0 (.string [1]) fetcher403 ["/bad", "/nix/store/a-b"]).2.length =
      (["/bad", "/nix/store/a-b"] : List String).length ∧
    (run_batch env0 (.string [1]) fetcher403 ["/bad", "/nix/store/a-b"]).2[0]? =
      some (process_path env0 (.string [1]) fetcher403 "/bad") ∧
    (∀ e, process_path env0 (.string [1]) fetcher403 "/bad" = .error e →
      ("/bad" : String).data <:+: e.data ∧
      ∃ inner, e = ctx ("Error while analyzing path " ++ dbgQuote "/bad") inner) :=
  per_target_isolation env0 (.string [1]) fetcher403 ["/bad", "/nix/store/a-b"] 0 "/bad" rfl

theorem select_fetcher_small (n : Nat) (allow : Bool) (region : Option String)
    (h0 : 0 < n) (h : n < 50) : select_fetcher n allow region = .proceed .cdn := by
  have h1 : ¬ n = 0 := by omega
  have h2 : ¬ PATHS_COUNT_AWS_THRESHOLD ≤ n := by
    simp only [PATHS_COUNT_AWS_THRESHOLD]; omega
  simp [select_fetcher, h1, h2]

theorem select_fetcher_large (n : Nat) (allow : Bool) (region : Option String)
    (h : 50 ≤ n) (hok : allow = true ∨ region = some NIX_CACHE_REGION) :
    select_fetcher n allow region = .proceed .s3 := by
  have h1 : ¬ n = 0 := by omega
  have h2 : PATHS_COUNT_AWS_THRESHOLD ≤ n := by
    simp only [PATHS_COUNT_AWS_THRESHOLD]; omega
  have h3 : ¬ (allow = false ∧ region.getD "not-aws" ≠ NIX_CACHE_REGION) := by
    rcases hok with hallow | hreg
    · simp [hallow]
    · simp [hreg]
  simp [select_fetcher, h1, h2, h3]

theorem select_fetcher_abort (n : Nat) (region : Option String)
    (h : 50 ≤ n) (hreg : region ≠ some NIX_CACHE_REGION) :
    select_fetcher n false region = .exitExpensive := by
  have h1 : ¬ n = 0 := by omega
  have h2 : PATHS_COUNT_AWS_THRESHOLD ≤ n := by
    simp only [PATHS_COUNT_AWS_THRESHOLD]; omega
  have hne : region.getD "not-aws" ≠ NIX_CACHE_REGION := by
    cases region with
    | none => simp [NIX_CACHE_REGION]
    | some r =>
      intro hh
      exact hreg (by simp only [Option.getD_some] at hh; rw [hh])
  simp [select_fetcher, h1, h2, hne]

theorem main_run_abort (env : Env) (backends : FetcherKind → Fetcher) (matcher : Matcher)
    (region : Option String) (paths : List String)
    (h : 50 ≤ paths.length) (hreg : region ≠ some NIX_CACHE_REGION) :
    main_run env backends matcher false region paths = (1, []) := by
  simp [main_run, select_fetcher_abort paths.length region h hreg]

/-- C2: CostGuard backend selection. A non-empty batch below the threshold
of 50 always selects the CDN backend; a batch of 50 or more selects the
object-store backend when the override flag is set or the detected region is
the expected one, and otherwise the run exits with status one and an empty
result list, before any target is processed. -/
theorem cost_guard_policy :
    (∀ (n : Nat) (allow : Bool) (region : Option String), 0 < n → n < 50 →
      select_fetcher n allow region = .proceed .cdn) ∧
    (∀ (n : Nat) (allow : Bool) (region : Option String), 50 ≤ n →
      (allow = true ∨ region = some NIX_CACHE_REGION) →
      select_fetcher n allow region = .proceed .s3) ∧
    (∀ (n : Nat) (region : Option String), 50 ≤ n → region ≠ some NIX_CACHE_REGION →
      select_fetcher n false region = .exitExpensive) ∧
    (∀ (env : Env) (backends : FetcherKind → Fetcher) (matcher : Matcher)
       (region : Option String) (paths : List String), 50 ≤ paths.length →
      region ≠ some NIX_CACHE_REGION →
      main_run env backends matcher false region paths = (1, [])) :=
  ⟨select_fetcher_small, select_fetcher_large, select_fetcher_abort, main_run_abort⟩

theorem cost_guard_policy_witness :
    select_fetcher 49 false (some "eu-west-1") = .proceed .cdn ∧
    select_fetcher 50 true (some "eu-west-1") = .proceed .s3 ∧
    select_fetcher 50 false none = .exitExpensive ∧
    main_run env0 (fun _ => fetcher403) (.string [1]) false (some "eu-west-1")
      (List.replicate 50 "p") = (1, []) :=
  ⟨cost_guard_policy.1 49 false (some "eu-west-1") (by decide) (by decide),
   cost_guard_policy.2.1 50 true (some "eu-west-1") (by decide) (Or.inl rfl),
   cost_guard_policy.2.2.1 50 none (by decide) (by decide),
   cost_guard_policy.2.2.2 env0 (fun _ => fetcher403) (.string [1]) (some "eu-west-1")
     (List.replicate 50 "p") (by simp) (by decide)⟩

/-- C8: bounded concurrency. In every state the engine can reach from the
start of a batch, the number of in-flight pipeline executions is at most the
configured limit, because a new execution may start only while strictly
fewer than the limit are in flight. -/
theorem bounded_concurrency (limit : Nat) (paths : List String) (s : EngineState)
    (h : EngineReach limit paths s) : s.inFlight.length ≤ limit := by
  induction h with
  | init => simp
  | next hreach hstep ih =>
    cases hstep with
    | start p rest fl c hlt => simpa using hlt
    | complete pend fl1 fl2 x c =>
      simp only [List.length_append, List.length_cons] at ih ⊢
      omega

theorem bounded_concurrency_witness :
    (⟨[], ["a"], 0⟩ : EngineState).inFlight.length ≤ 2 :=
  bounded_concurrency 2 ["a"] ⟨[], ["a"], 0⟩
    (EngineReach.next EngineReach.init (EngineStep.start "a" [] [] 0 (by decide)))

theorem stripPre_excl (a b : Char) (pt qt : List Char) (p q s v : String)
    (hpd : p.data = a :: pt) (hqd : q.data = b :: qt) (hab : a ≠ b)
    (hp : stripPre p s = some v) : stripPre q s = none := by
  cases hq : stripPre q s with
  | none => rfl
  | some w =>
    have e1 := stripPre_eq_some.mp hp
    have e2 := stripPre_eq_some.mp hq
    rw [hpd] at e1
    rw [hqd] at e2
    rw [e1] at e2
    simp only [List.cons_append, List.cons.injEq] at e2
    exact absurd e2.1 hab

theorem url_no_comp {l v : String} (h : stripPre "URL: " l = some v) :
    stripPre "Compression: " l = none :=
  stripPre_excl 'U' 'C' "RL: ".data "ompression: ".data "URL: " "Compression: " l v
    (by decide) (by decide) (by decide) h

theorem url_no_size {l v : String} (h : stripPre "URL: " l = some v) :
    stripPre "NarSize: " l = none :=
  stripPre_excl 'U' 'N' "RL: ".data "arSize: ".data "URL: " "NarSize: " l v
    (by decide) (by decide) (by decide) h

theorem comp_no_size {l v : String} (h : stripPre "Compression: " l = some v) :
    stripPre "NarSize: " l = none :=
  stripPre_excl 'C' 'N' "ompression: ".data "arSize: ".data "Compression: " "NarSize: " l v
    (by decide) (by decide) (by decide) h

theorem parse_lines_ok_iff (ls : List String) :
    ∀ (u c : Option String) (s : Option Nat),
    (∃ info, parse_narinfo_lines ls u c s = .ok info) ↔
      (ls.all sizeLineOk = true ∧
       (u.isSome = true ∨ ls.any isURLLine = true) ∧
       (c.isSome = true ∨ ls.any isCompLine = true) ∧
       (s.isSome = true ∨ ls.any isSizeLine = true)) := by
  induction ls with
  | nil =>
    intro u c s
    cases u <;> cases c <;> cases s <;> simp [parse_narinfo_lines]
  | cons l ls ih =>
    intro u c s
    cases hU : stripPre "URL: " l with
    | some v =>
      have hC := url_no_comp hU
      have hN := url_no_size hU
      simp only [parse_narinfo_lines, hU]
      rw [ih]
      simp only [List.all_cons, List.any_cons, isURLLine, isCompLine, isSizeLine, sizeLineOk,
        hU, hC, hN, Option.isSome_some, Option.isSome_none, Bool.true_and, Bool.false_or,
        Bool.true_or, Bool.and_eq_true, Bool.or_eq_true]
      tauto
    | none =>
      cases hC : stripPre "Compression: " l with
      | some v =>
        have hN := comp_no_size hC
        simp only [parse_narinfo_lines, hU, hC]
        rw [ih]
        simp only [List.all_cons, List.any_cons, isURLLine, isCompLine, isSizeLine, sizeLineOk,
          hU, hC, hN, Option.isSome_some, Option.isSome_none, Bool.true_and, Bool.false_or,
          Bool.true_or, Bool.and_eq_true, Bool.or_eq_true]
        tauto
      | none =>
        cases hN : stripPre "NarSize: " l with
        | some v =>
          cases hP : parseUsize v with
          | some n =>
            simp only [parse_narinfo_lines, hU, hC, hN, hP]
            rw [ih]
            simp only [List.all_cons, List.any_cons, isURLLine, isCompLine, isSizeLine,
              sizeLineOk, hU, hC, hN, hP, Option.isSome_some, Option.isSome_none,
              Bool.true_and, Bool.false_or, Bool.true_or, Bool.and_eq_true, Bool.or_eq_true]
            tauto
          | none =>
            simp only [parse_narinfo_lines, hU, hC, hN, hP]
            simp only [List.all_cons, List.any_cons, isURLLine, isCompLine, isSizeLine,
              sizeLineOk, hU, hC, hN, hP, Option.isSome_some, Option.isSome_none,
              Bool.true_and, Bool.false_or, Bool.true_or, Bool.and_eq_true, Bool.or_eq_true]
            simp
        | none =>
          simp only [parse_narinfo_lines, hU, hC, hN]
          rw [ih]
          simp only [List.all_cons, List.any_cons, isURLLine, isCompLine, isSizeLine,
            sizeLineOk, hU, hC, hN, Option.isSome_some, Option.isSome_none,
            Bool.true_and, Bool.false_or, Bool.true_or, Bool.and_eq_true, Bool.or_eq_true]

theorem parse_lines_ok_vals (ls : List String) :
    ∀ (u c : Option String) (s : Option Nat) (info : NarInfo),
    parse_narinfo_lines ls u c s = .ok info →
      lastValFrom "URL: " ls u = some info.nar_url ∧
      lastValFrom "Compression: " ls c = some info.compression ∧
      lastSizeFrom ls s = some info.nar_size := by
  induction ls with
  | nil =>
    intro u c s info h
    obtain ⟨nu, nc, ns⟩ := info
    cases u with
    | none => simp [parse_narinfo_lines] at h
    | some uv =>
      cases c with
      | none => simp [parse_narinfo_lines] at h
      | some cv =>
        cases s with
        | none => simp [parse_narinfo_lines] at h
        | some sv =>
          simp only [parse_narinfo_lines, Except.ok.injEq, NarInfo.mk.injEq] at h
          simp [lastValFrom, lastSizeFrom, h.1, h.2.1, h.2.2]
  | cons l ls ih =>
    intro u c s info h
    cases hU : stripPre "URL: " l with
    | some v =>
      have hC := url_no_comp hU
      have hN := url_no_size hU
      simp only [parse_narinfo_lines, hU] at h
      have hres := ih (some v) c s info h
      simpa [lastValFrom, lastSizeFrom, hU, hC, hN] using hres
    | none =>
      cases hC : stripPre "Compression: " l with
      | some v =>
        have hN := comp_no_size hC
        simp only [parse_narinfo_lines, hU, hC] at h
        have hres := ih u (some v) s info h
        simpa [lastValFrom, lastSizeFrom, hU, hC, hN] using hres
      | none =>
        cases hN : stripPre "NarSize: " l with
        | some v =>
          cases hP : parseUsize v with
          | some n =>
            simp only [parse_narinfo_lines, hU, hC, hN, hP] at h
            have hres := ih u c (some n) info h
            simpa [lastValFrom, lastSizeFrom, hU, hC, hN, hP] using hres
          | none =>
            simp [parse_narinfo_lines, hU, hC, hN, hP] at h
        | none =>
          simp only [parse_narinfo_lines, hU, hC, hN] at h
          have hres := ih u c s info h
          simpa [lastValFrom, lastSizeFrom, hU, hC, hN] using hres

theorem parse_lines_skip (l : String) (ls : List String) (u c : Option String) (s : Option Nat)
    (hU : isURLLine l = false) (hC : isCompLine l = false) (hN : isSizeLine l = false) :
    parse_narinfo_lines (l :: ls) u c s = parse_narinfo_lines ls u c s := by
  have hU' : stripPre "URL: " l = none := by
    cases h : stripPre "URL: " l with
    | none => rfl
    | some v => rw [isURLLine, h] at hU; simp at hU
  have hC' : stripPre "Compression: " l = none := by
    cases h : stripPre "Compression: " l with
    | none => rfl
    | some v => rw [isCompLine, h] at hC; simp at hC
  have hN' : stripPre "NarSize: " l = none := by
    cases h : stripPre "NarSize: " l with
    | none => rfl
    | some v => rw [isSizeLine, h] at hN; simp at hN
  simp only [parse_narinfo_lines, hU', hC', hN']

/-- C5 counterexample: a text that contains a URL line, a Compression line
and a NarSize line with a valid unsigned-integer value nevertheless fails to
parse, because it also contains a NarSize line with a non-numeric value. -/
theorem parse_narinfo_cex :
    (rustLines cex5).any isURLLine = true ∧
    (rustLines cex5).any isCompLine = true ∧
    (rustLines cex5).any (fun l =>
      match stripPre "NarSize: " l with
      | some v => (parseUsize v).isSome
      | none => false) = true ∧
    parse_narinfo cex5 = .error "Invalid NarSize" :=
  ⟨rfl, rfl, rfl, rfl⟩

/-- C5 amended: parsing succeeds exactly when the text contains a URL line,
a Compression line, at least one NarSize line, and no NarSize line with a
non-numeric value; on success the descriptor holds the values of the last
occurrence of each recognized key; lines with unrecognized keys are
ignored. -/
theorem parse_narinfo_amended (text : String) :
    ((∃ info, parse_narinfo text = .ok info) ↔
      ((rustLines text).all sizeLineOk = true ∧
       (rustLines text).any isURLLine = true ∧
       (rustLines text).any isCompLine = true ∧
       (rustLines text).any isSizeLine = true)) ∧
    (∀ info, parse_narinfo text = .ok info →
      lastValFrom "URL: " (rustLines text) none = some info.nar_url ∧
      lastValFrom "Compression: " (rustLines text) none = some info.compression ∧
      lastSizeFrom (rustLines text) none = some info.nar_size) ∧
    (∀ (l : String) (ls : List String) (u c : Option String) (s : Option Nat),
      isURLLine l = false → isCompLine l = false → isSizeLine l = false →
      parse_narinfo_lines (l :: ls) u c s = parse_narinfo_lines ls u c s) := by
  refine ⟨?_, ?_, parse_lines_skip⟩
  · unfold parse_narinfo
    rw [parse_lines_ok_iff]
    simp
  · intro info h
    exact parse_lines_ok_vals (rustLines text) none none none info h

theorem parse_narinfo_amended_witness :
    ∃ info,
      parse_narinfo "URL: nar/abc.nar.xz\nCompression: xz\nNarSize: 1234\nSig: s" =
        .ok info :=
  (parse_narinfo_amended "URL: nar/abc.nar.xz\nCompression: xz\nNarSize: 1234\nSig: s").1.mpr
    ⟨rfl, rfl, rfl, rfl⟩
